import Mathlib

/-
Verification of the rewards automation core: a shallow embedding of the
answer-checksum verifier, the dashboard remaining-search accessor, the
dashboard state fetcher retry loop, the activity classification cascade,
and the quiz completion protocols, together with theorems settling the
specified properties.
-/

set_option maxRecDepth 4000

namespace Rewards

/-- Value of a single base-16 digit character, following the digit ranges
accepted by the Python builtin int(s, 16) for plain hex digits. -/
def hexDigitVal (c : Char) : Option Nat :=
  if '0' ≤ c ∧ c ≤ '9' then some (c.toNat - '0'.toNat)
  else if 'a' ≤ c ∧ c ≤ 'f' then some (c.toNat - 'a'.toNat + 10)
  else if 'A' ≤ c ∧ c ≤ 'F' then some (c.toNat - 'A'.toNat + 10)
  else none

/-- Whether a character is a base-16 digit. -/
def isHexChar (c : Char) : Bool :=
  (hexDigitVal c).isSome

/-- Numeric value of a base-16 digit character, defaulting to 0. -/
def hexCharVal (c : Char) : Nat :=
  (hexDigitVal c).getD 0

/-- Base-16 parse of a character list, modelling the Python builtin
int(s, 16): succeeds exactly on a nonempty string of hex digits,
and a failure (none) models the ValueError the builtin raises.
(The builtin also tolerates surrounding whitespace, a sign, and a 0x
marker; such key tails do not occur and are modelled as failures.) -/
def parseHexNat (cs : List Char) : Option Nat :=
  if cs.isEmpty then none
  else
    cs.foldl
      (fun acc c =>
        match acc, hexDigitVal c with
        | some a, some d => some (a * 16 + d)
        | _, _ => none)
      (some 0)

/-- Embedding of src/src/utils.py getAnswerCode(key, string): sums the
code points of the option text, adds the base-16 value of the last two
characters of the key (key[-2:], modelled as dropping all but the last
two characters), and renders the total in decimal.  The result none
models the exception int() raises on a non-hex key tail. -/
def getAnswerCode (key s : String) : Option String :=
  let t : Nat := (s.data.map Char.toNat).sum
  match parseHexNat (key.data.drop (key.data.length - 2)) with
  | none => none
  | some k => some (toString (t + k))

/-- One search counter of the dashboard state: counters.pcSearch[0] or
counters.mobileSearch[0], each with a max and a current progress. -/
structure SearchCounter where
  pointProgressMax : Int
  pointProgress : Int
deriving DecidableEq

/-- The result shape RemainingSearches(desktop, mobile) returned by
getRemainingSearches when both surfaces are requested. -/
structure RemainingSearches where
  desktop : Int
  mobile : Int
deriving DecidableEq

/-- The slice of the dashboard state object read by getRemainingSearches:
userStatus.levelInfo.activeLevel and the two search counters. -/
structure DashboardState where
  activeLevel : String
  pcSearch : SearchCounter
  mobileSearch : SearchCounter
deriving DecidableEq

/-- Embedding of the searchPoints selection in src/src/browser.py
getRemainingSearches (lines 621-630): starts at 1, becomes 3 when the
max is 30, 90 or 102, becomes 5 when the max is 50 or 150 or at least
170. -/
def searchPointsOf (pointProgressMax : Int) : Int :=
  if pointProgressMax = 30 ∨ pointProgressMax = 90 ∨ pointProgressMax = 102 then 3
  else if pointProgressMax = 50 ∨ pointProgressMax = 150 ∨ pointProgressMax ≥ 170 then 5
  else 1

/-- Embedding of src/src/browser.py getRemainingSearches (lines 616-655),
desktopAndMobile=True shape (the remaining tail of the source merely
projects one field out of this pair).  An Except.error models an
AssertionError raised by a failed assert or by the unknown-level raise;
note the single searchPoints value, derived from the pcSearch counter,
is reused for the mobileSearch counter. -/
def getRemainingSearches (st : DashboardState) : Except String RemainingSearches :=
  let pc := st.pcSearch
  let searchPoints := searchPointsOf pc.pointProgressMax
  let pcPointsRemaining := pc.pointProgressMax - pc.pointProgress
  if pcPointsRemaining % searchPoints = 0 then
    let remainingDesktopSearches := pcPointsRemaining / searchPoints
    if st.activeLevel = "Level2" then
      let mobile := st.mobileSearch
      let mobilePointsRemaining := mobile.pointProgressMax - mobile.pointProgress
      if mobilePointsRemaining % searchPoints = 0 then
        Except.ok ⟨remainingDesktopSearches, mobilePointsRemaining / searchPoints⟩
      else
        Except.error "AssertionError"
    else if st.activeLevel = "Level1" then
      Except.ok ⟨remainingDesktopSearches, 0⟩
    else
      Except.error ("Unknown activeLevel: " ++ st.activeLevel)
  else
    Except.error "AssertionError"

/-- Embedding of src/src/utils.py goToRewards (lines 117-127) as a
fuel-bounded run of the source loop: after driving to the rewards URL
the source enters while True, returning only when the current URL equals
the rewards URL and otherwise refreshing and sleeping; urlOk k tells
whether the URL check succeeds on iteration k.  The fuel argument is not
in the source (the source loop has no counter): a none result means the
source loop is still running after that many iterations. -/
def goToRewardsLoop (urlOk : Nat → Bool) (k : Nat) : Nat → Option Nat
  | 0 => none
  | fuel + 1 => if urlOk k then some k else goToRewardsLoop urlOk (k + 1) fuel

/-- Outcome of one attempt iteration of getDashboardData: script is the
result of the try body (goToRewards then evaluating the dashboard
object; none models an exception there), recoverOk tells whether the
except-handler waitUntilVisible succeeds within its timeout (false
models its TimeoutException escaping the handler), and backNavTimeout
tells whether the finally-block navigation back to the remembered URL
times out (in which case the source lands on the dashboard instead). -/
structure DashAttempt where
  script : Option DashboardState
  recoverOk : Bool
  backNavTimeout : Bool

/-- Result of the getDashboardData call: value d models a normal return
(with none standing for the Python value None), raised models an
exception propagating to the caller. -/
inductive FetchResult where
  | value (d : Option DashboardState)
  | raised
deriving DecidableEq

/-- Embedding of the retry loop of src/src/utils.py getDashboardData
(lines 136-151) over the list of per-iteration outcomes: a successful
try body returns its state at once; a failed one runs the except handler
(refresh, sleep, waitUntilVisible) and continues when the handler
succeeds, or propagates the handler timeout when it does not; a loop
that exhausts its iterations falls off the end of the Python function,
returning None. -/
def getDashboardDataLoop : List DashAttempt → FetchResult
  | [] => FetchResult.value none
  | o :: rest =>
    match o.script with
    | some d => FetchResult.value (some d)
    | none => if o.recoverOk then getDashboardDataLoop rest else FetchResult.raised

/-- Embedding of src/src/utils.py getDashboardData: maxTries = 5
iterations of the loop body, taking the outcome of iteration k from the
oracle. -/
def getDashboardData (attempts : Nat → DashAttempt) : FetchResult :=
  getDashboardDataLoop ((List.range 5).map attempts)

/-- The activity record shape consumed by the engine: title, completion
flag, progress counters, promotion type, lock status, and the optional
daily-set date attribute. -/
structure Activity where
  title : String
  complete : Bool
  pointProgress : Int
  pointProgressMax : Int
  promotionType : String
  exclusiveLockedFeatureStatus : String
  dailySetDate : Option String
deriving DecidableEq, Inhabited

/-- Embedding of src/src/activities.py cleanupActivityTitle: removes every
zero-width-space character and turns every no-break-space character into
a plain space (both patterns of the source str.replace calls are single
characters, so the replacement is per character). -/
def cleanupActivityTitle (t : String) : String :=
  String.mk ((t.data.filter (fun c => c ≠ '\u200B')).map
    (fun c => if c = '\u00A0' then ' ' else c))

/-- Embedding of the ACTIVITY_TITLE_TO_SEARCH table of
src/src/activities.py (lines 17-40). -/
def ACTIVITY_TITLE_TO_SEARCH : List (String × String) :=
  [("Black Friday shopping", "black friday deals"),
   ("Discover open job roles", "jobs at microsoft"),
   ("Expand your vocabulary", "define demure"),
   ("Find places to stay", "hotels rome italy"),
   ("Find somewhere new to explore", "directions to new york"),
   ("Gaming time", "vampire survivors video game"),
   ("Get your shopping done faster", "new iphone"),
   ("Houses near you", "apartments manhattan"),
   ("How\x27s the economy?", "sp 500"),
   ("Learn to cook a new recipe", "how cook pierogi"),
   ("Let\x27s watch that movie again!", "aliens movie"),
   ("Plan a quick getaway", "flights nyc to paris"),
   ("Prepare for the weather", "weather tomorrow"),
   ("Quickly convert your money", "convert 374 usd to yen"),
   ("Search the lyrics of a song", "black sabbath supernaut lyrics"),
   ("Stay on top of the elections", "election news latest"),
   ("Too tired to cook tonight?", "Pizza Hut near me"),
   ("Translate anything", "translate pencil sharpener to spanish"),
   ("What time is it?", "china time"),
   ("What\x27s for Thanksgiving dinner?", "pumpkin pie recipe"),
   ("Who won?", "braves score"),
   ("You can track your package", "usps tracking")]

/-- The incomplete-activity ignore list of the default configuration in
src/src/utils.py (lines 39-42), as consulted by doActivity. -/
def IGNORE_LIST : List String :=
  ["Get 50 entries plus 1000 points!", "Safeguard your family\x27s info"]

/-- Substring test on strings, modelling the Python in operator on str. -/
def containsSub (s pat : String) : Bool :=
  decide (pat.data <:+: s.data)

/-- The skip condition at the head of src/src/activities.py doActivity
(line 231): already complete, or zero maximum progress, or
feature-locked. -/
def activitySkipCheck (a : Activity) : Prop :=
  a.complete = true ∨ a.pointProgressMax = 0 ∨ a.exclusiveLockedFeatureStatus = "locked"

instance (a : Activity) : Decidable (activitySkipCheck a) := by
  unfold activitySkipCheck; infer_instance

/-- The ignore check of doActivity (lines 234-238): the cleaned title is
on the configured ignore list. -/
def activityIgnored (a : Activity) : Prop :=
  cleanupActivityTitle a.title ∈ IGNORE_LIST

instance (a : Activity) : Decidable (activityIgnored a) := by
  unfold activityIgnored; infer_instance

/-- The outcome of classifying one activity through the cascade of
doActivity and _process_activity_with_heartbeat. -/
inductive ActivityKind where
  | skip
  | redirectSearch (query : String)
  | poll
  | passiveVisit
  | quizABC
  | quizMulti
  | quizThisOrThat
  | quizOther
deriving DecidableEq

/-- Embedding of the classification cascade: the skip and ignore checks
of doActivity (lines 231-238) followed by the dispatch conditions of
_process_activity_with_heartbeat (lines 327-344), in source order:
lookup-table match, then poll substring, then urlreward, then quiz
sub-classified by pointProgressMax (10, then 30 or 40, then 50, with no
action otherwise), then the default passive visit. -/
def classifyActivity (a : Activity) : ActivityKind :=
  let t := cleanupActivityTitle a.title
  if activitySkipCheck a then ActivityKind.skip
  else if activityIgnored a then ActivityKind.skip
  else
    match List.lookup t ACTIVITY_TITLE_TO_SEARCH with
    | some q => ActivityKind.redirectSearch q
    | none =>
      if containsSub t "poll" then ActivityKind.poll
      else if a.promotionType = "urlreward" then ActivityKind.passiveVisit
      else if a.promotionType = "quiz" then
        if a.pointProgressMax = 10 then ActivityKind.quizABC
        else if a.pointProgressMax = 30 ∨ a.pointProgressMax = 40 then ActivityKind.quizMulti
        else if a.pointProgressMax = 50 then ActivityKind.quizThisOrThat
        else ActivityKind.quizOther
      else ActivityKind.passiveVisit

/-- Browser interactions performed by the dispatch of
_process_activity_with_heartbeat for one opened activity. -/
inductive EngineEvent where
  | typeSearch (q : String)
  | submitSearch
  | surveyClick
  | passiveSearch
  | abcQuiz
  | multiQuiz
  | thisOrThatQuiz
deriving DecidableEq

/-- Embedding of the dispatch of _process_activity_with_heartbeat
(lines 326-344) as the list of interactions it performs: a lookup-table
title types the mapped query into the search box and submits it; a poll
title clicks a survey option, and so on in source order. -/
def processActivityEvents (a : Activity) : List EngineEvent :=
  let t := cleanupActivityTitle a.title
  match List.lookup t ACTIVITY_TITLE_TO_SEARCH with
  | some q => [EngineEvent.typeSearch q, EngineEvent.submitSearch]
  | none =>
    if containsSub t "poll" then [EngineEvent.surveyClick]
    else if a.promotionType = "urlreward" then [EngineEvent.passiveSearch]
    else if a.promotionType = "quiz" then
      if a.pointProgressMax = 10 then [EngineEvent.abcQuiz]
      else if a.pointProgressMax = 30 ∨ a.pointProgressMax = 40 then [EngineEvent.multiQuiz]
      else if a.pointProgressMax = 50 then [EngineEvent.thisOrThatQuiz]
      else []
    else [EngineEvent.passiveSearch]

/-- Steps observable in one doActivity call: opening the activity card,
logging a caught exception, running resetTabs after the try block, or
finishing the processing normally. -/
inductive StepEvent where
  | opened
  | processed
  | errorLogged
  | resetTabsDone
deriving DecidableEq

/-- Outcome oracle for the body of one activity attempt (opening the card
and processing it): an error models any exception raised there. -/
def attemptOutcome (raises : Bool) : Except String Unit :=
  if raises then Except.error "activity error" else Except.ok ()

/-- Embedding of src/src/activities.py doActivity (lines 227-252): the
skip and ignore checks return from inside the try block (before any card
is opened, and skipping the resetTabs call after the try block); any
exception in the remaining body is caught by the except Exception
handler and logged, after which control flows on to resetTabs.  The
Except layer records whether an exception escapes the call. -/
def doActivityRun (a : Activity) (raises : Bool) : Except String (List StepEvent) :=
  if activitySkipCheck a then Except.ok []
  else if activityIgnored a then Except.ok []
  else
    match attemptOutcome raises with
    | Except.ok () =>
        Except.ok [StepEvent.opened, StepEvent.processed, StepEvent.resetTabsDone]
    | Except.error _ =>
        Except.ok [StepEvent.opened, StepEvent.errorLogged, StepEvent.resetTabsDone]

/-- Embedding of the catalog loops of src/src/activities.py
completeActivities (lines 378-379 and 385-386): doActivity is called on
each activity in order, each with the outcome of its own attempt; an
error anywhere would abort the remaining calls. -/
def runCatalog : List (Activity × Bool) → Except String (List (List StepEvent))
  | [] => Except.ok []
  | (a, r) :: rest =>
    match doActivityRun a r with
    | Except.error e => Except.error e
    | Except.ok evs =>
      match runCatalog rest with
      | Except.error e => Except.error e
      | Except.ok evss => Except.ok (evs :: evss)

/-- Truthiness-and-lower test applied by completeQuiz (line 146) to the
iscorrectoption attribute: the attribute must be present, nonempty (a
Python falsy string fails the first conjunct) and equal to true after
lowercasing. -/
def optionFlagTrue : Option String → Bool
  | none => false
  | some s => (!s.isEmpty) && (s.toLower == "true")

/-- Browser interactions of one quiz question: clicking the option with
the given index, or waiting for the question to visibly refresh. -/
inductive QuizEvent where
  | click (i : Nat)
  | waitRefresh
deriving DecidableEq

/-- Embedding of the answers accumulation of completeQuiz (lines
141-147) for the 8-option branch: iterate the option indices in order
and append each option whose correctness flag passes the truthy-true
test. -/
def quizAnswers8 (flags : Nat → Option String) : List Nat :=
  (List.range 8).foldl (fun acc i => if optionFlagTrue (flags i) then acc ++ [i] else acc) []

/-- Embedding of the clicking loop of completeQuiz (lines 148-151) for
the 8-option branch: click each accumulated answer and wait for the
question refresh after each click. -/
def quizQuestion8 (flags : Nat → Option String) : List QuizEvent :=
  (quizAnswers8 flags).flatMap (fun i => [QuizEvent.click i, QuizEvent.waitRefresh])

/-- Embedding of the 2-3-4-option loop of completeQuiz (lines 152-169):
walk the option indices in order; on the first option whose data-option
value equals the page-shared correct answer, click it, wait for the
refresh, and break out of the loop. -/
def quizQuestionFewLoop (values : Nat → Option String) (correct : String) :
    List Nat → List QuizEvent
  | [] => []
  | i :: rest =>
    if values i = some correct then [QuizEvent.click i, QuizEvent.waitRefresh]
    else quizQuestionFewLoop values correct rest

/-- Embedding of the per-question branch of completeQuiz (lines
139-169): the 8-option branch clicks every flagged option; the 2, 3 or
4 option branch clicks the first option matching the shared correct
answer; any other option count does nothing for the question. -/
def completeQuizQuestion (numberOfOptions : Nat) (flags values : Nat → Option String)
    (correct : String) : List QuizEvent :=
  if numberOfOptions = 8 then quizQuestion8 flags
  else if numberOfOptions = 2 ∨ numberOfOptions = 3 ∨ numberOfOptions = 4 then
    quizQuestionFewLoop values correct (List.range numberOfOptions)
  else []

/-- The page state one this-or-that round reads: the embedded encoding
key (_G.IG), the page-declared correct answer value, and the data-option
texts of the two answer elements rqAnswerOption0 and rqAnswerOption1. -/
structure ThisOrThatPage where
  key : String
  correct : String
  opt : Fin 2 → String

/-- Embedding of getAnswerAndCode (src/src/activities.py lines 217-225)
restricted to the code it returns: the checksum of the answer element
data-option text under the page encoding key. -/
def getAnswerAndCodeOf (p : ThisOrThatPage) (j : Fin 2) : Option String :=
  getAnswerCode p.key (p.opt j)

/-- Embedding of one round of completeThisOrThat (lines 203-214): read
the correct answer value, compute both answer codes, click answer 1 when
its code matches, otherwise answer 2 when its code matches.  The result
none models an exception: either the checksum raising on a bad key, or
the unbound answerToClick when neither code matches. -/
def thisOrThatRound (p : ThisOrThatPage) : Option (Fin 2) :=
  match getAnswerAndCodeOf p 0 with
  | none => none
  | some c1 =>
    match getAnswerAndCodeOf p 1 with
    | none => none
    | some c2 =>
      if c1 = p.correct then some 0
      else if c2 = p.correct then some 1
      else none

/-- Result of a completeThisOrThat call: notLoaded models the
quiz-never-loaded early return (after resetTabs), raised models an
exception escaping some round, completed carries the clicked option of
each of the ten rounds. -/
inductive ThisOrThatResult where
  | notLoaded
  | raised (clicks : List (Fin 2))
  | completed (clicks : List (Fin 2))
deriving DecidableEq

/-- Embedding of the round loop of completeThisOrThat (lines 202-215):
run the given number of remaining rounds starting at round index k,
accumulating clicked options. -/
def thisOrThatLoop (pages : Nat → ThisOrThatPage) : Nat → Nat → List (Fin 2) → ThisOrThatResult
  | _, 0, acc => ThisOrThatResult.completed acc.reverse
  | k, n + 1, acc =>
    match thisOrThatRound (pages k) with
    | none => ThisOrThatResult.raised acc.reverse
    | some j => thisOrThatLoop pages (k + 1) n (j :: acc)

/-- Embedding of completeThisOrThat (src/src/activities.py lines
187-215): when the quiz never loads, reset tabs and return with no
round played; otherwise run exactly 10 rounds. -/
def completeThisOrThat (quizLoaded : Bool) (pages : Nat → ThisOrThatPage) : ThisOrThatResult :=
  if quizLoaded then thisOrThatLoop pages 0 10 [] else ThisOrThatResult.notLoaded

theorem string_append_data (p q : String) : (p ++ q).data = p.data ++ q.data := by
  cases p; cases q; rfl

theorem hexDigitVal_isSome_eq {c : Char} (h : isHexChar c = true) :
    hexDigitVal c = some (hexCharVal c) := by
  unfold isHexChar at h
  unfold hexCharVal
  cases hv : hexDigitVal c with
  | none => rw [hv] at h; simp [Option.isSome] at h
  | some d => simp [hv]

theorem foldl_append_if_eq_filter (p : Nat → Bool) (l acc : List Nat) :
    l.foldl (fun acc i => if p i then acc ++ [i] else acc) acc = acc ++ l.filter p := by
  induction l generalizing acc with
  | nil => simp
  | cons x xs ih => by_cases h : p x <;> simp [List.foldl, h, ih]

theorem quizQuestionFewLoop_range' (values : Nat → Option String) (correct : String)
    (j : Nat) :
    ∀ n s, s ≤ j → j < s + n → values j = some correct →
      (∀ k, s ≤ k → k < j → values k ≠ some correct) →
      quizQuestionFewLoop values correct (List.range' s n) =
        [QuizEvent.click j, QuizEvent.waitRefresh] := by
  intro n
  induction n with
  | zero => intro s h1 h2; omega
  | succ m ih =>
    intro s h1 h2 hv hmin
    rw [List.range'_succ]
    by_cases hs : values s = some correct
    · have hsj : s = j := by
        rcases Nat.lt_or_ge s j with hlt | hge
        · exact absurd hs (hmin s (Nat.le_refl s) hlt)
        · omega
      subst hsj
      simp [quizQuestionFewLoop, hs]
    · have hsj : s ≠ j := fun he => hs (he ▸ hv)
      have h1' : s + 1 ≤ j := by omega
      have h2' : j < (s + 1) + m := by omega
      simp only [quizQuestionFewLoop, if_neg hs]
      exact ih (s + 1) h1' h2' hv (fun k hk1 hk2 => hmin k (by omega) hk2)

theorem getAnswerCode_isSome_any (key a b : String) (h : (getAnswerCode key a).isSome) :
    (getAnswerCode key b).isSome := by
  unfold getAnswerCode at h ⊢
  cases hp : parseHexNat (key.data.drop (key.data.length - 2)) with
  | none => rw [hp] at h; simp at h
  | some k => simp

theorem thisOrThatRound_match (p : ThisOrThatPage)
    (h : ∃ j : Fin 2, getAnswerCode p.key (p.opt j) = some p.correct) :
    thisOrThatRound p =
      some (if getAnswerCode p.key (p.opt 0) = some p.correct then (0 : Fin 2) else 1) := by
  obtain ⟨j, hj⟩ := h
  have hsome : ∀ i : Fin 2, (getAnswerCode p.key (p.opt i)).isSome := by
    intro i
    exact getAnswerCode_isSome_any p.key (p.opt j) (p.opt i) (by rw [hj]; rfl)
  obtain ⟨c1, hc1⟩ := Option.isSome_iff_exists.mp (hsome 0)
  obtain ⟨c2, hc2⟩ := Option.isSome_iff_exists.mp (hsome 1)
  unfold thisOrThatRound getAnswerAndCodeOf
  rw [hc1, hc2]
  by_cases h1 : c1 = p.correct
  · simp [h1, hc1]
  · have h2 : c2 = p.correct := by
      have hj0 : j = 0 ∨ j = 1 := by omega
      rcases hj0 with hj0 | hj1
      · rw [hj0] at hj; rw [hj] at hc1; exact absurd (Option.some_injective _ hc1).symm h1
      · rw [hj1] at hj; rw [hj] at hc2; exact (Option.some_injective _ hc2).symm
    have hne : ¬ getAnswerCode p.key (p.opt 0) = some p.correct := by
      rw [hc1]; intro hcon; exact h1 (Option.some_injective _ hcon)
    simp [h1, h2, hne]

theorem thisOrThatLoop_spec (pages : Nat → ThisOrThatPage) :
    ∀ n k acc,
      (∀ i, k ≤ i → i < k + n →
        ∃ j : Fin 2, getAnswerCode (pages i).key ((pages i).opt j) = some (pages i).correct) →
      thisOrThatLoop pages k n acc = ThisOrThatResult.completed
        (acc.reverse ++ (List.range' k n).map (fun i =>
          if getAnswerCode (pages i).key ((pages i).opt 0) = some (pages i).correct
          then (0 : Fin 2) else 1)) := by
  intro n
  induction n with
  | zero => intro k acc _; simp [thisOrThatLoop]
  | succ m ih =>
    intro k acc h
    have hk := h k (Nat.le_refl k) (by omega)
    rw [List.range'_succ]
    simp only [thisOrThatLoop, thisOrThatRound_match (pages k) hk]
    rw [ih (k + 1) (_ :: acc) (fun i h1 h2 => h i (by omega) (by omega))]
    simp

/-- C1: for every key with at least two trailing base-16 characters and
every option text, getAnswerCode returns the decimal string of the sum
of the code points of the option text plus the base-16 value of the last
two key characters. -/
theorem getAnswerCode_spec (p : String) (c1 c2 : Char) (s : String)
    (h1 : isHexChar c1 = true) (h2 : isHexChar c2 = true) :
    getAnswerCode (p ++ String.mk [c1, c2]) s =
      some (toString (((s.data.map Char.toNat).sum) +
        (16 * hexCharVal c1 + hexCharVal c2))) := by
  unfold getAnswerCode
  have hdata : (p ++ String.mk [c1, c2]).data = p.data ++ [c1, c2] :=
    string_append_data p (String.mk [c1, c2])
  rw [hdata]
  have hlen : (p.data ++ [c1, c2]).length - 2 = p.data.length := by
    simp
  rw [hlen]
  have hdrop : (p.data ++ [c1, c2]).drop p.data.length = [c1, c2] :=
    List.drop_left p.data [c1, c2]
  rw [hdrop]
  have hparse : parseHexNat [c1, c2] = some (16 * hexCharVal c1 + hexCharVal c2) := by
    unfold parseHexNat
    simp only [List.isEmpty, List.foldl, if_false]
    rw [hexDigitVal_isSome_eq h1, hexDigitVal_isSome_eq h2]
    simp [Nat.mul_comm]
  rw [hparse]

/-- C3 counterexample: with a desktop counter max of 30 (3 points per
search) and a mobile counter max of 150, the code divides the mobile
remainder by 3 (the desktop-derived value), returning 50 mobile
searches, while dividing the mobile remainder by the divisor inferred
from the mobile counter own max (5) would give 30. -/
theorem getRemainingSearches_own_max_cex :
    getRemainingSearches ⟨"Level2", ⟨30, 0⟩, ⟨150, 0⟩⟩ = Except.ok ⟨10, 50⟩ ∧
      ((150 : Int) - 0) / searchPointsOf 150 = 30 ∧ (50 : Int) ≠ 30 :=
  ⟨rfl, by decide, by decide⟩

/-- C3 (amended): remainingSearches divides each counter remainder by the
single pointsPerSearch value inferred from the desktop counter max
(3 for max in 30/90/102, 5 for max in 50/150 or at least 170, else 1);
a remainder of either consulted counter that is not an exact multiple of
that shared value raises a hard error instead of returning a rounded
value. -/
theorem getRemainingSearches_shared_searchPoints (st : DashboardState) :
    (((st.pcSearch.pointProgressMax - st.pcSearch.pointProgress) %
          searchPointsOf st.pcSearch.pointProgressMax = 0 ∧ st.activeLevel = "Level1") →
        getRemainingSearches st = Except.ok
          ⟨(st.pcSearch.pointProgressMax - st.pcSearch.pointProgress) /
              searchPointsOf st.pcSearch.pointProgressMax, 0⟩) ∧
    (((st.pcSearch.pointProgressMax - st.pcSearch.pointProgress) %
          searchPointsOf st.pcSearch.pointProgressMax = 0 ∧ st.activeLevel = "Level2" ∧
        (st.mobileSearch.pointProgressMax - st.mobileSearch.pointProgress) %
          searchPointsOf st.pcSearch.pointProgressMax = 0) →
        getRemainingSearches st = Except.ok
          ⟨(st.pcSearch.pointProgressMax - st.pcSearch.pointProgress) /
              searchPointsOf st.pcSearch.pointProgressMax,
            (st.mobileSearch.pointProgressMax - st.mobileSearch.pointProgress) /
              searchPointsOf st.pcSearch.pointProgressMax⟩) ∧
    ((st.pcSearch.pointProgressMax - st.pcSearch.pointProgress) %
          searchPointsOf st.pcSearch.pointProgressMax ≠ 0 →
        ∃ m, getRemainingSearches st = Except.error m) ∧
    (((st.pcSearch.pointProgressMax - st.pcSearch.pointProgress) %
          searchPointsOf st.pcSearch.pointProgressMax = 0 ∧ st.activeLevel = "Level2" ∧
        (st.mobileSearch.pointProgressMax - st.mobileSearch.pointProgress) %
          searchPointsOf st.pcSearch.pointProgressMax ≠ 0) →
        ∃ m, getRemainingSearches st = Except.error m) := by
  refine ⟨?_, ?_, ?_, ?_⟩
  · rintro ⟨h1, h2⟩
    by_cases h3 : st.activeLevel = "Level2"
    · rw [h2] at h3; exact absurd h3 (by decide)
    · simp [getRemainingSearches, h1, h2, h3]
  · rintro ⟨h1, h2, h3⟩
    simp [getRemainingSearches, h1, h2, h3]
  · intro h1
    simp [getRemainingSearches, h1]
  · rintro ⟨h1, h2, h3⟩
    simp [getRemainingSearches, h1, h2, h3]

/-- C4: with the desktop divisibility assert satisfied, remainingSearches
computes and reports the mobile counter when the active level is Level2
(given its divisibility assert), reports 0 mobile searches when the
active level is Level1, and raises a fatal error on any other active
level value. -/
theorem getRemainingSearches_activeLevel (st : DashboardState)
    (hpc : (st.pcSearch.pointProgressMax - st.pcSearch.pointProgress) %
        searchPointsOf st.pcSearch.pointProgressMax = 0) :
    (st.activeLevel = "Level2" →
        (st.mobileSearch.pointProgressMax - st.mobileSearch.pointProgress) %
            searchPointsOf st.pcSearch.pointProgressMax = 0 →
        getRemainingSearches st = Except.ok
          ⟨(st.pcSearch.pointProgressMax - st.pcSearch.pointProgress) /
              searchPointsOf st.pcSearch.pointProgressMax,
            (st.mobileSearch.pointProgressMax - st.mobileSearch.pointProgress) /
              searchPointsOf st.pcSearch.pointProgressMax⟩) ∧
    (st.activeLevel = "Level1" →
        getRemainingSearches st = Except.ok
          ⟨(st.pcSearch.pointProgressMax - st.pcSearch.pointProgress) /
              searchPointsOf st.pcSearch.pointProgressMax, 0⟩) ∧
    (st.activeLevel ≠ "Level2" → st.activeLevel ≠ "Level1" →
        getRemainingSearches st = Except.error ("Unknown activeLevel: " ++ st.activeLevel)) := by
  refine ⟨?_, ?_, ?_⟩
  · intro h2 hm
    simp [getRemainingSearches, hpc, h2, hm]
  · intro h1
    by_cases h2 : st.activeLevel = "Level2"
    · rw [h1] at h2; exact absurd h2 (by decide)
    · simp [getRemainingSearches, hpc, h1, h2]
  · intro h2 h1
    simp [getRemainingSearches, hpc, h1, h2]

/-- C10: the wait used to return the browser to the dashboard page is not
a bounded polling loop: on a page whose URL never equals the rewards
URL, goToRewards runs forever — no amount of fuel makes the source loop
terminate, contradicting the bounded-wait property. -/
theorem goToRewards_unbounded (fuel k : Nat) :
    goToRewardsLoop (fun _ => false) k fuel = none := by
  induction fuel generalizing k with
  | zero => rfl
  | succ n ih => simpa [goToRewardsLoop] using ih (k + 1)

/-- C5: evaluating getDashboardData on a run in which the dashboard
object is absent on all five attempts while every recovery step
succeeds: the function returns the Python value None to the caller
instead of raising, contradicting both its declared dict return type and
the specified raise-on-exhaustion behaviour. -/
theorem getDashboardData_exhausted_returns_none :
    getDashboardData (fun _ => ⟨none, true, false⟩) = FetchResult.value none := rfl

/-- C6: an activity that is already complete, or has zero maximum
progress, or is feature-locked, classifies as skip and its doActivity
call performs no interaction (no card opened, no processing), regardless
of every other field and of the attempt outcome. -/
theorem activity_skip_no_interaction (a : Activity) (h : activitySkipCheck a) :
    classifyActivity a = ActivityKind.skip ∧
      ∀ r, doActivityRun a r = Except.ok [] := by
  constructor
  · simp [classifyActivity, h]
  · intro r; simp [doActivityRun, h]

/-- C9: the catalog loop never lets an exception from one activity
attempt escape: every run returns normally, processes every activity of
the catalog, and an activity whose attempt raised shows the logged error
followed by the tab reset, with all later activities still processed. -/
theorem runCatalog_isolates_failures (items : List (Activity × Bool)) :
    ∃ evss, runCatalog items = Except.ok evss ∧ evss.length = items.length ∧
      ∀ i, i < items.length →
        ¬ activitySkipCheck (items.getD i default).1 →
        ¬ activityIgnored (items.getD i default).1 →
        (items.getD i default).2 = true →
        evss.getD i [] = [StepEvent.opened, StepEvent.errorLogged, StepEvent.resetTabsDone] := by
  induction items with
  | nil => exact ⟨[], rfl, rfl, by intro i h; simp at h⟩
  | cons item rest ih =>
    obtain ⟨evss, hrun, hlen, hspec⟩ := ih
    obtain ⟨a, r⟩ := item
    by_cases hs : activitySkipCheck a
    · refine ⟨[] :: evss, ?_, by simpa using hlen, ?_⟩
      · simp [runCatalog, doActivityRun, hs, hrun]
      · intro i hi hskip hign hr
        cases i with
        | zero => simp at hskip; exact absurd hs hskip
        | succ j =>
          simpa using hspec j (by simpa using hi) (by simpa using hskip)
            (by simpa using hign) (by simpa using hr)
    · by_cases hg : activityIgnored a
      · refine ⟨[] :: evss, ?_, by simpa using hlen, ?_⟩
        · simp [runCatalog, doActivityRun, hs, hg, hrun]
        · intro i hi hskip hign hr
          cases i with
          | zero => simp at hign; exact absurd hg hign
          | succ j =>
            simpa using hspec j (by simpa using hi) (by simpa using hskip)
              (by simpa using hign) (by simpa using hr)
      · cases r with
        | true =>
          refine ⟨[StepEvent.opened, StepEvent.errorLogged, StepEvent.resetTabsDone] :: evss,
            ?_, by simpa using hlen, ?_⟩
          · simp [runCatalog, doActivityRun, hs, hg, attemptOutcome, hrun]
          · intro i hi hskip hign hr
            cases i with
            | zero => simp
            | succ j =>
              simpa using hspec j (by simpa using hi) (by simpa using hskip)
                (by simpa using hign) (by simpa using hr)
        | false =>
          refine ⟨[StepEvent.opened, StepEvent.processed, StepEvent.resetTabsDone] :: evss,
            ?_, by simpa using hlen, ?_⟩
          · simp [runCatalog, doActivityRun, hs, hg, attemptOutcome, hrun]
          · intro i hi hskip hign hr
            cases i with
            | zero => simp at hr
            | succ j =>
              simpa using hspec j (by simpa using hi) (by simpa using hskip)
                (by simpa using hign) (by simpa using hr)

/-- C8: an incomplete, unlocked activity with nonzero maximum progress
whose title reads What time is it? classifies as redirect-search with
the mapped query china time — the lookup-table rule fires before the
urlreward rule — and the engine types that query into the search box and
submits it. -/
theorem whatTimeIsIt_redirect_search (a : Activity)
    (ht : a.title = "What time is it?") (hc : a.complete = false)
    (hm : a.pointProgressMax ≠ 0) (hl : a.exclusiveLockedFeatureStatus ≠ "locked") :
    classifyActivity a = ActivityKind.redirectSearch "china time" ∧
      processActivityEvents a =
        [EngineEvent.typeSearch "china time", EngineEvent.submitSearch] := by
  have hskip : ¬ activitySkipCheck a := by
    unfold activitySkipCheck
    rw [hc]
    push_neg
    exact ⟨by decide, hm, hl⟩
  have hclean : cleanupActivityTitle "What time is it?" = "What time is it?" := by decide
  have hign : ¬ activityIgnored a := by
    unfold activityIgnored
    rw [ht, hclean]
    decide
  have hlook : List.lookup "What time is it?" ACTIVITY_TITLE_TO_SEARCH = some "china time" := by
    decide
  constructor
  · simp [classifyActivity, hskip, hign, ht, hclean, hlook]
  · simp [processActivityEvents, ht, hclean, hlook]

/-- Scenario A instance of the C8 theorem: the concrete urlreward
activity with title What time is it? is classified redirect-search and
the search box receives china time. -/
theorem whatTimeIsIt_redirect_search_witness :
    classifyActivity ⟨"What time is it?", false, 0, 5, "urlreward", "unlocked", none⟩ =
        ActivityKind.redirectSearch "china time" ∧
      processActivityEvents ⟨"What time is it?", false, 0, 5, "urlreward", "unlocked", none⟩ =
        [EngineEvent.typeSearch "china time", EngineEvent.submitSearch] :=
  whatTimeIsIt_redirect_search
    ⟨"What time is it?", false, 0, 5, "urlreward", "unlocked", none⟩
    rfl rfl (by decide) (by decide)

/-- C7: in the multi-step quiz, an 8-option question clicks exactly the
options whose correctness flag is true, in increasing option order,
waiting for the question refresh after each click; a question with 2, 3
or 4 options clicks only the first option whose declared value equals
the shared correct answer and then stops. -/
theorem completeQuiz_question_spec (flags values : Nat → Option String) (correct : String)
    (n j : Nat) (hn : n = 2 ∨ n = 3 ∨ n = 4) (hj : j < n)
    (hv : values j = some correct) (hmin : ∀ k, k < j → values k ≠ some correct) :
    (completeQuizQuestion 8 flags values correct =
        ((List.range 8).filter (fun i => optionFlagTrue (flags i))).flatMap
          (fun i => [QuizEvent.click i, QuizEvent.waitRefresh]) ∧
      ((List.range 8).filter (fun i => optionFlagTrue (flags i))).Pairwise (· < ·)) ∧
    completeQuizQuestion n flags values correct =
      [QuizEvent.click j, QuizEvent.waitRefresh] := by
  refine ⟨⟨?_, ?_⟩, ?_⟩
  · have h8 : completeQuizQuestion 8 flags values correct = quizQuestion8 flags := by
      simp [completeQuizQuestion]
    rw [h8]
    unfold quizQuestion8 quizAnswers8
    rw [foldl_append_if_eq_filter]
    simp
  · exact List.Pairwise.filter _ (List.pairwise_lt_range 8)
  · have hne : n ≠ 8 := by omega
    have hfew : completeQuizQuestion n flags values correct =
        quizQuestionFewLoop values correct (List.range n) := by
      simp [completeQuizQuestion, hne, hn]
    rw [hfew, List.range_eq_range']
    exact quizQuestionFewLoop_range' values correct j n 0 (Nat.zero_le j) (by omega) hv
      (fun k _ hk2 => hmin k hk2)

/-- C2: once the this-or-that quiz has loaded, the engine performs
exactly 10 rounds; in each round it clicks option 1 when the checksum of
the option 1 text under the page key equals the page-declared correct
answer value and option 2 otherwise, so the clicked option is always one
whose checksum equals that value. -/
theorem completeThisOrThat_spec (pages : Nat → ThisOrThatPage)
    (h : ∀ i, i < 10 →
      ∃ j : Fin 2, getAnswerCode (pages i).key ((pages i).opt j) = some (pages i).correct) :
    completeThisOrThat true pages = ThisOrThatResult.completed
        ((List.range 10).map (fun i =>
          if getAnswerCode (pages i).key ((pages i).opt 0) = some (pages i).correct
          then (0 : Fin 2) else 1)) ∧
      ∀ i, i < 10 →
        getAnswerCode (pages i).key
            ((pages i).opt
              (if getAnswerCode (pages i).key ((pages i).opt 0) = some (pages i).correct
               then (0 : Fin 2) else 1)) =
          some (pages i).correct := by
  constructor
  · unfold completeThisOrThat
    rw [if_pos rfl, thisOrThatLoop_spec pages 10 0 [] (fun i h1 h2 => h i (by omega))]
    rw [List.range_eq_range']
    simp
  · intro i hi
    obtain ⟨j, hj⟩ := h i hi
    by_cases h0 : getAnswerCode (pages i).key ((pages i).opt 0) = some (pages i).correct
    · simp [h0]
    · have hj1 : j = 1 := by
        have : j = 0 ∨ j = 1 := by omega
        rcases this with h' | h'
        · rw [h'] at hj; exact absurd hj h0
        · exact h'
      rw [hj1] at hj
      simp [h0, hj]

/-- Scenario D instance of the C2 theorem: options Paris and Rome, key
1a (hex value 26), correct answer token 537 = checksum of Paris — all
ten rounds click Paris (option 1). -/
theorem completeThisOrThat_spec_witness :
    completeThisOrThat true
        (fun _ => ⟨"1a", "537", fun j => if j = 0 then "Paris" else "Rome"⟩) =
      ThisOrThatResult.completed (List.replicate 10 (0 : Fin 2)) := by
  have h := (completeThisOrThat_spec
      (fun _ => ⟨"1a", "537", fun j => if j = 0 then "Paris" else "Rome"⟩)
      (fun i _ => ⟨0, (by decide : getAnswerCode "1a" "Paris" = some "537")⟩)).1
  rw [h]
  decide

/-- Concrete instance of the C1 theorem: key tail "1a", option text "Paris". -/
theorem getAnswerCode_spec_witness :
    isHexChar '1' = true ∧ isHexChar 'a' = true ∧
      getAnswerCode ("x" ++ String.mk ['1', 'a']) "Paris" =
        some (toString ((("Paris".data.map Char.toNat).sum) +
          (16 * hexCharVal '1' + hexCharVal 'a'))) :=
  ⟨by decide, by decide, getAnswerCode_spec "x" '1' 'a' "Paris" (by decide) (by decide)⟩

/-- Scenario C instance of the C3 amended theorem: desktop counter max 90
and progress 72 yield exactly 6 remaining desktop searches. -/
theorem getRemainingSearches_shared_searchPoints_witness :
    getRemainingSearches ⟨"Level1", ⟨90, 72⟩, ⟨100, 100⟩⟩ = Except.ok ⟨6, 0⟩ := by
  have h := (getRemainingSearches_shared_searchPoints ⟨"Level1", ⟨90, 72⟩, ⟨100, 100⟩⟩).1
    ⟨by decide, rfl⟩
  exact h.trans (by norm_num [searchPointsOf])

/-- Concrete instance of the C4 theorem: an unrecognized active level
(Level3) makes remainingSearches raise rather than report zero. -/
theorem getRemainingSearches_activeLevel_witness :
    getRemainingSearches ⟨"Level3", ⟨90, 72⟩, ⟨100, 100⟩⟩ =
      Except.error ("Unknown activeLevel: " ++ "Level3") :=
  (getRemainingSearches_activeLevel ⟨"Level3", ⟨90, 72⟩, ⟨100, 100⟩⟩ (by decide)).2.2
    (by decide) (by decide)

/-- Concrete instance of the C6 theorem: a completed activity whose title
is also on the search lookup table still classifies as skip. -/
theorem activity_skip_no_interaction_witness :
    classifyActivity ⟨"What time is it?", true, 5, 5, "urlreward", "unlocked", none⟩ =
        ActivityKind.skip ∧
      ∀ r, doActivityRun ⟨"What time is it?", true, 5, 5, "urlreward", "unlocked", none⟩ r =
        Except.ok [] :=
  activity_skip_no_interaction
    ⟨"What time is it?", true, 5, 5, "urlreward", "unlocked", none⟩ (Or.inl rfl)

/-- Concrete instance of the C7 theorem: three options with values A, B,
A and shared correct answer B — only option 1 is clicked. -/
theorem completeQuiz_question_spec_witness :
    completeQuizQuestion 3 (fun _ => none)
        (fun i => if i = 1 then some "B" else some "A") "B" =
      [QuizEvent.click 1, QuizEvent.waitRefresh] :=
  (completeQuiz_question_spec (fun _ => none)
      (fun i => if i = 1 then some "B" else some "A") "B" 3 1
      (Or.inr (Or.inl rfl)) (by decide) (by decide)
      (fun k hk => by
        have hk0 : k = 0 := by omega
        subst hk0; decide)).2

end Rewards



